import Mathlib

/-!  Verification development for the Eurozone Consumer Trend Analyzer.

The Python repository (models.py, gateway.py, engine.py) is shallowly embedded
below: pydantic dataclasses become Lean structures, machine floats become ℚ,
Python dicts become association lists in insertion order, fallible code returns
`Option` or `Except`.  Caught Python exceptions (`AttributeError`/`TypeError`
in the attribute walk, `ValueError` in parsing) appear as `Option.none`;
uncaught ones (pydantic validation, `ZeroDivisionError`) as `Except.error`.
-/

namespace CES

/-- Dynamic (duck-typed) leaf values flowing through the analytics engine:
a Python number (int/float, embedded as ℚ), a string, or `None`. -/
inductive Val where
  | num (q : ℚ)
  | str (s : String)
  | pynone
deriving DecidableEq

/-- A Python `Dict[str, Any]` in insertion order (keys are unique in the
dicts the program builds). -/
abbrev Flags := List (String × Val)

/-- A `datetime.date`, embedded structurally. -/
structure PyDate where
  year : ℕ
  month : ℕ
  day : ℕ
deriving DecidableEq

/-- models.EmploymentStatus, a StrEnum with values "1".."4" and "unknown". -/
inductive EmploymentStatus where
  | EMPLOYED
  | UNEMPLOYED
  | INACTIVE
  | OTHER
  | UNKNOWN
deriving DecidableEq

/-- The string value carried by each EmploymentStatus member (it is a StrEnum,
so the member is a `str` instance, never a number). -/
def EmploymentStatus.valueStr : EmploymentStatus → String
  | .EMPLOYED => "1"
  | .UNEMPLOYED => "2"
  | .INACTIVE => "3"
  | .OTHER => "4"
  | .UNKNOWN => "unknown"

/-- models.HouseholdMember (c2150/c2151 series). -/
structure HouseholdMember where
  member_id : ℕ
  age : Option ℚ := none
  relation_status : Option ℚ := none
deriving DecidableEq

/-- models.OccupationalProfile (x1040 series): nine optional strings. -/
structure OccupationalProfile where
  edu_level : Option String := none
  employment_sector : Option String := none
  occupation_type : Option String := none
  industry : Option String := none
  hours_worked : Option String := none
  firm_size : Option String := none
  contract_type : Option String := none
  tenure : Option String := none
  public_private : Option String := none
deriving DecidableEq

/-- models.DemographicsModule. -/
structure DemographicsModule where
  gender : Option ℤ := none
  age_group : Option ℤ := none
  household_size : Option ℤ := none
  num_children : Option ℤ := none
  occupation : OccupationalProfile := {}
  household_members : List HouseholdMember := []
deriving DecidableEq

/-- models.MacroModule; `inflation_1y` is the one non-optional field
(default 0.0, pydantic bounds ge=-100, le=100 checked at construction). -/
structure MacroModule where
  inflation_1y : ℚ := 0
  inflation_3y : Option ℚ := none
  inflation_perception_12m : Option ℚ := none
  inflation_uncertainty : Option ℚ := none
  econ_growth_12m : Option ℚ := none
  interest_rate_exp : Option ℚ := none
  unemployment_percept : Option ℚ := none
deriving DecidableEq

/-- models.ConsumptionModule. -/
structure ConsumptionModule where
  income_growth : Option ℚ := none
  spending_growth : Option ℚ := none
  major_purchases_intent : Option ℚ := none
  savings_growth : Option ℚ := none
  tax_exp : Option ℚ := none
  public_svc_exp : Option ℚ := none
  housing_costs_exp : Option ℚ := none
  energy_exp : Option ℚ := none
  food_exp : Option ℚ := none
deriving DecidableEq

/-- models.LaborModule. -/
structure LaborModule where
  job_loss_prob : Option ℚ := none
  job_find_prob : Option ℚ := none
  prob_working_after_70 : Option ℚ := none
  prob_inc_increase : Option ℚ := none
  prob_leaving_labor_market : Option ℚ := none
  employment_status : EmploymentStatus := .UNKNOWN
deriving DecidableEq

/-- models.HousingWealthModule. -/
structure HousingWealthModule where
  house_price_exp : Option ℚ := none
  buy_home_conditions : Option ℚ := none
  cash_savings : Option ℚ := none
  life_insurance : Option ℚ := none
  pension_funds : Option ℚ := none
  mutual_funds : Option ℚ := none
  public_bonds : Option ℚ := none
  corp_bonds : Option ℚ := none
  stocks : Option ℚ := none
  business_equity : Option ℚ := none
  crypto_assets : Option ℚ := none
  precious_metals : Option ℚ := none
  other_financial_details : List (String × ℚ) := []
deriving DecidableEq

/-- models.CreditDebtModule.  (gateway.py also passes a `debt_details`
keyword at construction; pydantic 2.x dataclasses silently drop unexpected
keyword arguments, so no such field exists on the record.) -/
structure CreditDebtModule where
  mortgage_access : Option ℚ := none
  consumer_credit_access : Option ℚ := none
  bank_loan_apply : Option ℚ := none
  credit_constraint_flag : Option ℚ := none
  repayment_increase_prob : Option ℚ := none
  loan_repayment_struggle : Option ℚ := none
  debt_level_expected : Option ℚ := none
  repayment_capacity : Option ℚ := none
deriving DecidableEq

/-- models.CESObservation.  The Python attribute named `macro` is embedded as
the field `macroM` (the Lean surface syntax reserves the word); the attribute
tables below still expose it under the attribute string "macro". -/
structure CESObservation where
  id : ℕ
  observation_date : PyDate
  macroM : MacroModule
  consumption : ConsumptionModule
  labor : LaborModule
  housing : HousingWealthModule
  credit : CreditDebtModule
  demographics : DemographicsModule
  survey_weight : ℚ := 1
  sentiment_flags : Flags := []
  quarterly_data : Flags := []
  quality_audit : Flags := []
deriving DecidableEq

/-! ### Python attribute lookup (`getattr`), as used by the engine -/

/-- A Python runtime value reachable while walking a dotted attribute path
from a CESObservation. -/
inductive PyVal where
  | leaf (v : Val)
  | obsV (o : CESObservation)
  | dateV (d : PyDate)
  | macroV (m : MacroModule)
  | consV (c : ConsumptionModule)
  | laborV (l : LaborModule)
  | housingV (h : HousingWealthModule)
  | creditV (c : CreditDebtModule)
  | demoV (d : DemographicsModule)
  | occV (o : OccupationalProfile)
  | membersV (ms : List HouseholdMember)
  | dictV (d : Flags)
  | qdictV (d : List (String × ℚ))
deriving DecidableEq

/-- Optional float attribute as a Python value. -/
def optQ : Option ℚ → Val
  | some q => .num q
  | none => .pynone

/-- Optional int attribute as a Python value. -/
def optZ : Option ℤ → Val
  | some z => .num (z : ℚ)
  | none => .pynone

/-- Optional string attribute as a Python value. -/
def optS : Option String → Val
  | some s => .str s
  | none => .pynone

/-- getattr on a CESObservation. -/
def obsAttr (o : CESObservation) (a : String) : Option PyVal :=
  if a = "id" then some (.leaf (.num (o.id : ℚ)))
  else if a = "observation_date" then some (.dateV o.observation_date)
  else if a = "macro" then some (.macroV o.macroM)
  else if a = "consumption" then some (.consV o.consumption)
  else if a = "labor" then some (.laborV o.labor)
  else if a = "housing" then some (.housingV o.housing)
  else if a = "credit" then some (.creditV o.credit)
  else if a = "demographics" then some (.demoV o.demographics)
  else if a = "survey_weight" then some (.leaf (.num o.survey_weight))
  else if a = "sentiment_flags" then some (.dictV o.sentiment_flags)
  else if a = "quarterly_data" then some (.dictV o.quarterly_data)
  else if a = "quality_audit" then some (.dictV o.quality_audit)
  else none

/-- getattr on a datetime.date (the numeric components). -/
def dateAttr (d : PyDate) (a : String) : Option PyVal :=
  if a = "year" then some (.leaf (.num (d.year : ℚ)))
  else if a = "month" then some (.leaf (.num (d.month : ℚ)))
  else if a = "day" then some (.leaf (.num (d.day : ℚ)))
  else none

/-- getattr on MacroModule. -/
def macroAttr (m : MacroModule) (a : String) : Option PyVal :=
  if a = "inflation_1y" then some (.leaf (.num m.inflation_1y))
  else if a = "inflation_3y" then some (.leaf (optQ m.inflation_3y))
  else if a = "inflation_perception_12m" then some (.leaf (optQ m.inflation_perception_12m))
  else if a = "inflation_uncertainty" then some (.leaf (optQ m.inflation_uncertainty))
  else if a = "econ_growth_12m" then some (.leaf (optQ m.econ_growth_12m))
  else if a = "interest_rate_exp" then some (.leaf (optQ m.interest_rate_exp))
  else if a = "unemployment_percept" then some (.leaf (optQ m.unemployment_percept))
  else none

/-- getattr on ConsumptionModule. -/
def consAttr (c : ConsumptionModule) (a : String) : Option PyVal :=
  if a = "income_growth" then some (.leaf (optQ c.income_growth))
  else if a = "spending_growth" then some (.leaf (optQ c.spending_growth))
  else if a = "major_purchases_intent" then some (.leaf (optQ c.major_purchases_intent))
  else if a = "savings_growth" then some (.leaf (optQ c.savings_growth))
  else if a = "tax_exp" then some (.leaf (optQ c.tax_exp))
  else if a = "public_svc_exp" then some (.leaf (optQ c.public_svc_exp))
  else if a = "housing_costs_exp" then some (.leaf (optQ c.housing_costs_exp))
  else if a = "energy_exp" then some (.leaf (optQ c.energy_exp))
  else if a = "food_exp" then some (.leaf (optQ c.food_exp))
  else none

/-- getattr on LaborModule (the employment_status member is a StrEnum, i.e. a
string instance, never numeric). -/
def laborAttr (l : LaborModule) (a : String) : Option PyVal :=
  if a = "job_loss_prob" then some (.leaf (optQ l.job_loss_prob))
  else if a = "job_find_prob" then some (.leaf (optQ l.job_find_prob))
  else if a = "prob_working_after_70" then some (.leaf (optQ l.prob_working_after_70))
  else if a = "prob_inc_increase" then some (.leaf (optQ l.prob_inc_increase))
  else if a = "prob_leaving_labor_market" then some (.leaf (optQ l.prob_leaving_labor_market))
  else if a = "employment_status" then some (.leaf (.str l.employment_status.valueStr))
  else none

/-- getattr on HousingWealthModule. -/
def housingAttr (h : HousingWealthModule) (a : String) : Option PyVal :=
  if a = "house_price_exp" then some (.leaf (optQ h.house_price_exp))
  else if a = "buy_home_conditions" then some (.leaf (optQ h.buy_home_conditions))
  else if a = "cash_savings" then some (.leaf (optQ h.cash_savings))
  else if a = "life_insurance" then some (.leaf (optQ h.life_insurance))
  else if a = "pension_funds" then some (.leaf (optQ h.pension_funds))
  else if a = "mutual_funds" then some (.leaf (optQ h.mutual_funds))
  else if a = "public_bonds" then some (.leaf (optQ h.public_bonds))
  else if a = "corp_bonds" then some (.leaf (optQ h.corp_bonds))
  else if a = "stocks" then some (.leaf (optQ h.stocks))
  else if a = "business_equity" then some (.leaf (optQ h.business_equity))
  else if a = "crypto_assets" then some (.leaf (optQ h.crypto_assets))
  else if a = "precious_metals" then some (.leaf (optQ h.precious_metals))
  else if a = "other_financial_details" then some (.qdictV h.other_financial_details)
  else none

/-- getattr on CreditDebtModule. -/
def creditAttr (c : CreditDebtModule) (a : String) : Option PyVal :=
  if a = "mortgage_access" then some (.leaf (optQ c.mortgage_access))
  else if a = "consumer_credit_access" then some (.leaf (optQ c.consumer_credit_access))
  else if a = "bank_loan_apply" then some (.leaf (optQ c.bank_loan_apply))
  else if a = "credit_constraint_flag" then some (.leaf (optQ c.credit_constraint_flag))
  else if a = "repayment_increase_prob" then some (.leaf (optQ c.repayment_increase_prob))
  else if a = "loan_repayment_struggle" then some (.leaf (optQ c.loan_repayment_struggle))
  else if a = "debt_level_expected" then some (.leaf (optQ c.debt_level_expected))
  else if a = "repayment_capacity" then some (.leaf (optQ c.repayment_capacity))
  else none

/-- getattr on DemographicsModule. -/
def demoAttr (d : DemographicsModule) (a : String) : Option PyVal :=
  if a = "gender" then some (.leaf (optZ d.gender))
  else if a = "age_group" then some (.leaf (optZ d.age_group))
  else if a = "household_size" then some (.leaf (optZ d.household_size))
  else if a = "num_children" then some (.leaf (optZ d.num_children))
  else if a = "occupation" then some (.occV d.occupation)
  else if a = "household_members" then some (.membersV d.household_members)
  else none

/-- getattr on OccupationalProfile. -/
def occAttr (o : OccupationalProfile) (a : String) : Option PyVal :=
  if a = "edu_level" then some (.leaf (optS o.edu_level))
  else if a = "employment_sector" then some (.leaf (optS o.employment_sector))
  else if a = "occupation_type" then some (.leaf (optS o.occupation_type))
  else if a = "industry" then some (.leaf (optS o.industry))
  else if a = "hours_worked" then some (.leaf (optS o.hours_worked))
  else if a = "firm_size" then some (.leaf (optS o.firm_size))
  else if a = "contract_type" then some (.leaf (optS o.contract_type))
  else if a = "tenure" then some (.leaf (optS o.tenure))
  else if a = "public_private" then some (.leaf (optS o.public_private))
  else none

/-- Python `getattr(value, name)`: `Option.none` is the AttributeError /
TypeError case that `GenericMeanStrategy.compute` catches.  Numbers, strings,
`None`, lists and dicts expose no data attributes used by any path. -/
def pyGetattr : PyVal → String → Option PyVal
  | .obsV o, a => obsAttr o a
  | .dateV d, a => dateAttr d a
  | .macroV m, a => macroAttr m a
  | .consV c, a => consAttr c a
  | .laborV l, a => laborAttr l a
  | .housingV h, a => housingAttr h a
  | .creditV c, a => creditAttr c a
  | .demoV d, a => demoAttr d a
  | .occV o, a => occAttr o a
  | .leaf _, _ => none
  | .membersV _, _ => none
  | .dictV _, _ => none
  | .qdictV _, _ => none

/-- The attribute walk of engine.GenericMeanStrategy.compute:
`for part in self.attr_path.split('.'): temp_val = getattr(temp_val, part)`.
`Option.none` means some segment raised (and the except-branch runs). -/
def pyWalk : PyVal → List String → Option PyVal
  | v, [] => some v
  | v, p :: ps =>
    match pyGetattr v p with
    | some w => pyWalk w ps
    | none => none

/-- Python `str.split(sep)` for a one-character separator, on the character
list: `"a.b".split('.') == ["a", "b"]`, `"".split('.') == [""]`. -/
def splitOnChar (c : Char) : List Char → List (List Char)
  | [] => [[]]
  | x :: xs =>
    if x = c then [] :: splitOnChar c xs
    else
      match splitOnChar c xs with
      | [] => [[x]]
      | g :: gs => (x :: g) :: gs

/-- `self.attr_path.split('.')` from engine.GenericMeanStrategy.compute. -/
def pathParts (s : String) : List String :=
  (splitOnChar '.' s.data).map (fun cs => String.mk cs)

/-- Python `dict.get(key)`: `None` both when the key is absent and when the
stored value is `None` (the engine code cannot tell these apart). -/
def dictGet (d : Flags) (k : String) : Val :=
  match d.lookup k with
  | some v => v
  | none => .pynone

/-- The per-observation body of engine.GenericMeanStrategy.compute: try the
attribute walk; on AttributeError/TypeError fall back to
`obs.sentiment_flags.get(path)`, and if that is `None`, to
`obs.sentiment_flags.get(path ++ "_1")`. -/
def resolveChain (obs : CESObservation) (attr_path : String) : PyVal :=
  match pyWalk (.obsV obs) (pathParts attr_path) with
  | some v => v
  | none =>
    match dictGet obs.sentiment_flags attr_path with
    | .pynone => .leaf (dictGet obs.sentiment_flags (attr_path ++ "_1"))
    | v => .leaf v

/-- The `isinstance(val, (int, float))` filter of the engine: only a numeric
leaf contributes to `values`. -/
def numOf : PyVal → Option ℚ
  | .leaf (.num q) => some q
  | _ => none

/-- engine.GenericMeanStrategy.compute: accumulate the numeric resolved values
in order, then `sum(values) / len(values) if values else 0.0`. -/
def genericMeanCompute (attr_path : String) (data : List CESObservation) : ℚ :=
  let values := data.foldl
    (fun values obs =>
      match numOf (resolveChain obs attr_path) with
      | some q => values ++ [q]
      | none => values)
    ([] : List ℚ)
  if values = [] then 0 else values.sum / (values.length : ℚ)

/-- Specification-side view of the engine loop: the list of exactly those
values that resolve to a number via the path-resolution chain, in collection
order. -/
def resolvedValues (attr_path : String) (data : List CESObservation) : List ℚ :=
  data.filterMap (fun obs => numOf (resolveChain obs attr_path))

/-- An observation used by witnesses: its sentiment_flags hold a numeric value
under "x6020_1" and nothing under "x6020". -/
def obsW : CESObservation :=
  { id := 0, observation_date := ⟨2024, 1, 1⟩, macroM := {}, consumption := {},
    labor := {}, housing := {}, credit := {}, demographics := {},
    sentiment_flags := [("x6020_1", Val.num 7)] }

/-- Modelled from the spec: `WeightedMeanStrategy` is imported from `engine`
by the repository's tests (test_system.py) but its definition is absent from
the source tree.  Per the spec it computes the weighted arithmetic mean using
each Observation's `survey_weight` as the weight for its resolved value; an
Observation whose value does not resolve contributes neither to numerator nor
denominator; it returns 0.0 if the weight sum is zero. -/
def weightedMeanCompute (attr_path : String) (data : List CESObservation) : ℚ :=
  let pairs := data.filterMap
    (fun obs =>
      (numOf (resolveChain obs attr_path)).map (fun q => (q, obs.survey_weight)))
  let wsum := (pairs.map Prod.snd).sum
  if wsum = 0 then 0 else (pairs.map (fun p => p.1 * p.2)).sum / wsum

/-- Two observations with equal weight 2 and inflation values 2 and 4. -/
def obsA : CESObservation :=
  { id := 1, observation_date := ⟨2024, 1, 1⟩, macroM := { inflation_1y := 2 },
    consumption := {}, labor := {}, housing := {}, credit := {},
    demographics := {}, survey_weight := 2 }

/-- Companion to `obsA` with inflation 4. -/
def obsB : CESObservation :=
  { id := 2, observation_date := ⟨2024, 1, 1⟩, macroM := { inflation_1y := 4 },
    consumption := {}, labor := {}, housing := {}, credit := {},
    demographics := {}, survey_weight := 2 }

/-! ### gateway.CESDataGateway: field coercion -/

/-- A parsed CSV row: header names to raw cell text, in column order. -/
abbrev Row := List (String × String)

/-- Python `row.get(key, "")`. -/
def rowGet (row : Row) (k : String) : String :=
  match row.lookup k with
  | some v => v
  | none => ""

/-- Whitespace characters removed by Python `str.strip()`. -/
def pySpace (c : Char) : Bool :=
  c == ' ' || c == '\t' || c == '\n' || c == '\r' || c == '\x0b' || c == '\x0c'

/-- Python `str.strip()`: drop leading and trailing whitespace. -/
def pyStrip (s : String) : String :=
  String.mk (((s.data.dropWhile pySpace).reverse.dropWhile pySpace).reverse)

/-- Python `str.lower()` (ASCII case mapping, which covers every string the
program compares). -/
def pyLower (s : String) : String :=
  String.mk (s.data.map Char.toLower)

/-- Value of a nonempty all-digit character run, else `none`. -/
def digitsVal : List Char → Option ℕ
  | [] => none
  | cs =>
    if cs.all Char.isDigit then
      some (cs.foldl (fun n c => 10 * n + (c.toNat - 48)) 0)
    else none

/-- Split a float literal at the first exponent marker e/E. -/
def splitExpMarker : List Char → List Char × Option (List Char)
  | [] => ([], none)
  | c :: t =>
    if c = 'e' ∨ c = 'E' then ([], some t)
    else
      let r := splitExpMarker t
      (c :: r.1, r.2)

/-- Split a mantissa at the first decimal point. -/
def splitPoint : List Char → List Char × Option (List Char)
  | [] => ([], none)
  | c :: t =>
    if c = '.' then ([], some t)
    else
      let r := splitPoint t
      (c :: r.1, r.2)

/-- Value of the mantissa `digits[.digits]` of a float literal (at least one
digit overall is required). -/
def mantissaVal (cs : List Char) : Option ℚ :=
  let p := splitPoint cs
  match p.2 with
  | none => (digitsVal p.1).map (fun n => (n : ℚ))
  | some fp =>
    if p.1 = [] ∧ fp = [] then none
    else if p.1.all Char.isDigit ∧ fp.all Char.isDigit then
      some ((p.1.foldl (fun n c => 10 * n + (c.toNat - 48)) 0 : ℕ)
        + (fp.foldl (fun n c => 10 * n + (c.toNat - 48)) 0 : ℕ) / (10 : ℚ) ^ fp.length)
    else none

/-- Signed integer exponent of a float literal. -/
def expVal (cs : List Char) : Option ℤ :=
  match cs with
  | '+' :: t => (digitsVal t).map (fun n => (n : ℤ))
  | '-' :: t => (digitsVal t).map (fun n => -(n : ℤ))
  | t => (digitsVal t).map (fun n => (n : ℤ))

/-- Python `float(s)` on finite decimal literals (optional sign, digits with
an optional fraction, optional exponent); the special tokens inf/nan and
digit-group underscores are outside the rational model.  `none` embeds the
`ValueError` that the gateway catches. -/
def pyFloat (s : String) : Option ℚ :=
  let p := match s.data with
    | '+' :: t => (false, t)
    | '-' :: t => (true, t)
    | t => (false, t)
  let m := splitExpMarker p.2
  match mantissaVal m.1, m.2 with
  | some q, none => some (if p.1 then -q else q)
  | some q, some ecs =>
    match expVal ecs with
    | some e => some ((if p.1 then -q else q) * (10 : ℚ) ^ e)
    | none => none
  | none, _ => none

/-- gateway.CESDataGateway._f: `val = row.get(key, "").strip()`; an empty
string or the case-insensitive literal "none" yields `None`; otherwise
`float(val)` with `ValueError` caught to `None`. -/
def pf (row : Row) (key : String) : Option ℚ :=
  let val := pyStrip (rowGet row key)
  if val = "" ∨ pyLower val = "none" then none
  else pyFloat val

/-- Python `round(x)` with no digits argument: round half to even. -/
def pyRound (q : ℚ) : ℤ :=
  if q - (⌊q⌋ : ℚ) < 1 / 2 then ⌊q⌋
  else if 1 / 2 < q - (⌊q⌋ : ℚ) then ⌊q⌋ + 1
  else if ⌊q⌋ % 2 = 0 then ⌊q⌋ else ⌊q⌋ + 1

/-- gateway.CESDataGateway._i: `int(round(res)) if res is not None else None`. -/
def pint (row : Row) (key : String) : Option ℤ :=
  (pf row key).map pyRound

/-! ### models.CESObservation: validated construction -/

/-- Message of models.CESObservation.validate_date_range, naming the field
and the offending year. -/
def dateErrMsg (y : ℕ) : String :=
  "observation_date" ++ " year must be between 2000 and 2030, got " ++ toString y

/-- Message reported for a non-positive survey weight: pydantic rejects via
the field constraint gt=0 (and models.CESObservation.validate_weight_positive
states the same rule); the report names the field and the offending value. -/
def weightErrMsg (w : ℚ) : String :=
  "survey_weight" ++ " must be > 0, got " ++ toString w

/-- Validated construction of models.CESObservation.  pydantic checks the
fields in declaration order (observation_date before survey_weight), collects
every failure into the raised ValidationError, and produces no instance on
failure. -/
def mkCESObservation (id : ℕ) (d : PyDate) (ma : MacroModule)
    (co : ConsumptionModule) (la : LaborModule) (ho : HousingWealthModule)
    (cr : CreditDebtModule) (de : DemographicsModule) (w : ℚ)
    (sf qd qa : Flags) : Except String CESObservation :=
  if d.year < 2000 ∨ 2030 < d.year then
    if w ≤ 0 then .error (dateErrMsg d.year ++ "; " ++ weightErrMsg w)
    else .error (dateErrMsg d.year)
  else if w ≤ 0 then .error (weightErrMsg w)
  else .ok ⟨id, d, ma, co, la, ho, cr, de, w, sf, qd, qa⟩

/-- Bool prefix test on character lists. -/
def prefixOfB : List Char → List Char → Bool
  | [], _ => true
  | _ :: _, [] => false
  | a :: as, b :: bs => a == b && prefixOfB as bs

/-- Contiguous-sublist test on character lists. -/
def containsSub (needle : List Char) : List Char → Bool
  | [] => needle.isEmpty
  | c :: t => prefixOfB needle (c :: t) || containsSub needle t

/-- Python substring test `needle in hay`. -/
def strContains (needle hay : String) : Bool :=
  containsSub needle.data hay.data

/-! ### gateway.load_all_data: household members and demographics quality -/

/-- One slot of the member loop in gateway.load_all_data: the slot is kept
only when `age_val is not None or rel_val is not None`.  (The source reads
`age_val` from the c2151 series and `rel_val` from the c2150 series.) -/
def memberSlot (row : Row) (i : ℕ) : Option HouseholdMember :=
  if pf row ("c2151_" ++ toString i) ≠ none ∨ pf row ("c2150_" ++ toString i) ≠ none then
    some ⟨i, pf row ("c2151_" ++ toString i), pf row ("c2150_" ++ toString i)⟩
  else none

/-- The `for m_idx in range(1, 11)` loop of gateway.load_all_data appending
one HouseholdMember per kept slot. -/
def buildMembers (row : Row) : List HouseholdMember :=
  (List.range' 1 10).foldl
    (fun acc i =>
      match memberSlot row i with
      | some m => acc ++ [m]
      | none => acc)
    []

/-- Python truthiness of an optional string: `None` and "" are falsy
(`if not obs.demographics.occupation.edu_level`). -/
def falsyOptStr : Option String → Bool
  | none => true
  | some s => s.isEmpty

/-- The five fixed categories of engine.DemographicsQualityStrategy.compute
with their missing counts, in insertion order. -/
def missingCounts (data : List CESObservation) : List (String × ℕ) :=
  [("Gender", data.countP (fun o => o.demographics.gender.isNone)),
   ("Age Group", data.countP (fun o => o.demographics.age_group.isNone)),
   ("Household Size", data.countP (fun o => o.demographics.household_size.isNone)),
   ("Education Info", data.countP (fun o => falsyOptStr o.demographics.occupation.edu_level)),
   ("Household Members", data.countP (fun o => o.demographics.household_members.isEmpty))]

/-- Python division, raising ZeroDivisionError on a zero denominator. -/
def pyDiv (a b : ℚ) : Except String ℚ :=
  if b = 0 then .error "ZeroDivisionError: division by zero" else .ok (a / b)

/-- The dict comprehension `{k: (v / total_records) * 100 ...}`, evaluated
left to right, raising at the first division by zero. -/
def divMapCounts (total : ℚ) : List (String × ℕ) → Except String (List (String × ℚ))
  | [] => .ok []
  | p :: t =>
    match pyDiv (p.2 : ℚ) total with
    | .error e => .error e
    | .ok q =>
      match divMapCounts total t with
      | .error e => .error e
      | .ok rest => .ok ((p.1, q * 100) :: rest)

/-- engine.DemographicsQualityStrategy.compute (also dispatched unchanged by
AnalyticsEngine.run_quality_report; the worker-pool indirection adds no
logic). -/
def demographicsQualityCompute (data : List CESObservation) :
    Except String (List (String × ℚ)) :=
  divMapCounts (data.length : ℚ) (missingCounts data)

/-! ### gateway.load_all_data: full row construction -/

/-- Python `x or default` for an optional float: `None` and 0.0 are falsy. -/
def pyOrQ (v : Option ℚ) (dflt : ℚ) : ℚ :=
  match v with
  | some w => if w = 0 then dflt else w
  | none => dflt

/-- Gregorian leap year, as in datetime. -/
def leapYear (y : ℕ) : Bool :=
  (y % 4 == 0 && y % 100 != 0) || y % 400 == 0

/-- Days per month, as validated by datetime.date. -/
def daysInMonth (y m : ℕ) : ℕ :=
  if m = 2 then (if leapYear y then 29 else 28)
  else if m = 4 ∨ m = 6 ∨ m = 9 ∨ m = 11 then 30
  else 31

/-- `datetime.strptime(cell, "%Y-%m-%d").date()`: three dash-separated
all-digit groups (year up to 4 digits, month and day up to 2), with the
month, day and year ranges validated by datetime. -/
def strptimeYMD (s : String) : Option PyDate :=
  match splitOnChar '-' s.data with
  | [ys, ms, ds] =>
    if ys.length ≤ 4 ∧ ms.length ≤ 2 ∧ ds.length ≤ 2 then
      match digitsVal ys, digitsVal ms, digitsVal ds with
      | some y, some m, some d =>
        if 1 ≤ y ∧ y ≤ 9999 ∧ 1 ≤ m ∧ m ≤ 12 ∧ 1 ≤ d ∧ d ≤ daysInMonth y m then
          some ⟨y, m, d⟩
        else none
      | _, _, _ => none
    else none
  | _ => none

/-- The emp_status handling of load_all_data: strip; an empty cell maps to
"unknown"; otherwise `str(round(float(raw)))` is matched against the enum
values, any failure (non-numeric, unmatched) resolving to UNKNOWN. -/
def parseEmpStatus (raw0 : String) : EmploymentStatus :=
  if pyStrip raw0 = "" then .UNKNOWN
  else
    match pyFloat (pyStrip raw0) with
    | some q =>
      if pyRound q = 1 then .EMPLOYED
      else if pyRound q = 2 then .UNEMPLOYED
      else if pyRound q = 3 then .INACTIVE
      else if pyRound q = 4 then .OTHER
      else .UNKNOWN
    | none => .UNKNOWN

/-- Bool suffix test (`str.endswith`). -/
def endsWithB (s suffix2 : String) : Bool :=
  prefixOfB suffix2.data.reverse s.data.reverse

/-- Column-name markers routing raw cells into sentiment_flags. -/
def sentimentMarkers : List String := ["x6020", "h2020", "c60", "x8020", "x8110"]

/-- `{k: row[k] for k in row if any(x in k for x in [markers])}`: the raw
cell text is stored unchanged (a string). -/
def sentimentFlags (row : Row) : Flags :=
  (row.filter (fun kv => sentimentMarkers.any (fun x => strContains x kv.1))).map
    (fun kv => (kv.1, Val.str kv.2))

/-- `{k: row[k] for k in row if k.endswith("_q")}`: raw text values. -/
def quarterlyData (row : Row) : Flags :=
  (row.filter (fun kv => endsWithB kv.1 "_q")).map (fun kv => (kv.1, Val.str kv.2))

/-- `{k: row[k] for k in row if k.endswith("_nr")}`: raw text values. -/
def qualityAudit (row : Row) : Flags :=
  (row.filter (fun kv => endsWithB kv.1 "_nr")).map (fun kv => (kv.1, Val.str kv.2))

/-- `{f"c3251_{j}": _f(row, f"c3251_{j}") for j in range(1, 9) if ... is not
None}`. -/
def otherFinancialDetails (row : Row) : List (String × ℚ) :=
  (List.range' 1 8).filterMap
    (fun j => (pf row ("c3251_" ++ toString j)).map
      (fun v => ("c3251_" ++ toString j, v)))

/-- MacroModule construction: pydantic validates `inflation_1y` against the
declared bounds ge=-100, le=100, naming the field and value on failure. -/
def mkMacroModule (q : ℚ) (i3 ip iu eg ir up : Option ℚ) :
    Except String MacroModule :=
  if q < -100 ∨ 100 < q then
    .error ("inflation_1y" ++ " must be between -100 and 100, got " ++ toString q)
  else .ok ⟨q, i3, ip, iu, eg, ir, up⟩

/-- One iteration of gateway.load_all_data.  The modules are built first
(MacroModule construction can already fail on its bounds); the date cell is
then fetched (KeyError if absent) and parsed (ValueError on a malformed
date); finally the validated observation is constructed.  The `debt_details`
keyword passed to CreditDebtModule is dropped by pydantic; the fields not
passed stay at their defaults. -/
def loadRow (i : ℕ) (row : Row) : Except String CESObservation :=
  match mkMacroModule (pyOrQ (pf row "c4030") 0) (pf row "c4031")
      (pf row "c4010") (pf row "c4020") (pf row "e2010") (pf row "e2020")
      (pf row "c4032") with
  | .error e => .error e
  | .ok ma =>
    match row.lookup "Date" with
    | none => .error "KeyError: Date"
    | some ds =>
      match strptimeYMD ds with
      | none => .error "ValueError: time data does not match format %Y-%m-%d"
      | some d =>
        mkCESObservation i d ma
          ⟨pf row "c1150_1", pf row "c1150_2", pf row "c1150_3",
            pf row "c1220", pf row "c1150_4", pf row "c1150_5",
            pf row "c1150_6", pf row "c1150_7", pf row "c1150_8"⟩
          ⟨pf row "p1410_1", pf row "p1410_2", pf row "p1410_3",
            pf row "p1410_4", pf row "p1410_5",
            parseEmpStatus (rowGet row "emp_status")⟩
          ⟨pf row "c3220", pf row "c3210", pf row "c3250_1", pf row "c3250_2",
            pf row "c3250_3", pf row "c3250_4", pf row "c3250_5",
            pf row "c3250_6", pf row "c3250_7", pf row "c3250_8",
            pf row "c3251_9", pf row "c3251_10", otherFinancialDetails row⟩
          ⟨pf row "c8010_1", pf row "c8010_2", pf row "c8010_3",
            pf row "c8011_1", none, pf row "c8011_3", none, none⟩
          ⟨pint row "c1010", pint row "c1020", pint row "c2110",
            pint row "c2120",
            ⟨row.lookup "x1040_1", row.lookup "x1040_2", row.lookup "x1040_3",
              row.lookup "x1040_4", row.lookup "x1040_5", row.lookup "x1040_6",
              row.lookup "x1040_7", row.lookup "x1040_8", row.lookup "x1040_9"⟩,
            buildMembers row⟩
          (pyOrQ (pf row "wgt") 1)
          (sentimentFlags row) (quarterlyData row) (qualityAudit row)

/-! ### engine.AnalyticsEngine.find_by_date -/

/-- Zero-padded two-digit strftime field ("%m"). -/
def pad2 (n : ℕ) : String :=
  if n < 10 then "0" ++ toString n else toString n

/-- strftime "%Y-%m" (years in the validated range print as four digits). -/
def fmtYM (y m : ℕ) : String := toString y ++ "-" ++ pad2 m

/-- strftime "%m-%Y". -/
def fmtMY (y m : ℕ) : String := pad2 m ++ "-" ++ toString y

/-- The engine's month-name mapping, in insertion order. -/
def monthsList : List (String × ℕ) :=
  [("jan", 1), ("feb", 2), ("mar", 3), ("apr", 4), ("may", 5), ("jun", 6),
   ("jul", 7), ("aug", 8), ("sep", 9), ("oct", 10), ("nov", 11), ("dec", 12)]

/-- The three-letter abbreviation of month m (the key of `monthsList`). -/
def monthAbbrev : ℕ → String
  | 1 => "jan"
  | 2 => "feb"
  | 3 => "mar"
  | 4 => "apr"
  | 5 => "may"
  | 6 => "jun"
  | 7 => "jul"
  | 8 => "aug"
  | 9 => "sep"
  | 10 => "oct"
  | 11 => "nov"
  | 12 => "dec"
  | _ => ""

/-- The loop body of engine.AnalyticsEngine.find_by_date for one observation
and the already lowercased/stripped query: the "YYYY-MM" test, the "MM-YYYY"
test, then the free-form test (a month key occurring in the query together
with `str(d.year)`; `next` picks the first matching key in insertion order,
and a month mismatch just moves on to the next observation). -/
def findBody (s : String) (obs : CESObservation) : Option CESObservation :=
  if s = fmtYM obs.observation_date.year obs.observation_date.month then some obs
  else if s = fmtMY obs.observation_date.year obs.observation_date.month then some obs
  else if (monthsList.any (fun p => strContains p.1 s))
      && strContains (toString obs.observation_date.year) s then
    match monthsList.find? (fun p => strContains p.1 s) with
    | some p => if p.2 = obs.observation_date.month then some obs else none
    | none => none
  else none

/-- engine.AnalyticsEngine.find_by_date: lowercase and strip the query, then
return the first matching observation in collection order, or None. -/
def findByDate (data : List CESObservation) (search0 : String) :
    Option CESObservation :=
  data.findSome? (findBody (pyStrip (pyLower search0)))

/-- Specification-side matcher: the observation is dated in month m of
year y. -/
def matchesPeriod (y m : ℕ) (obs : CESObservation) : Bool :=
  obs.observation_date.year == y && obs.observation_date.month == m

/-- A row whose "val" cell holds " 13 " (whitespace to be stripped). -/
def rowC5 : Row := [("val", " 13 ")]

/-- A row carrying only the relation column of member slot 2. -/
def rowC6 : Row := [("c2150_2", "30")]

/-- A row with a zero survey weight cell. -/
def rowC9 : Row := [("Date", "2024-01-01"), ("wgt", "0")]

/-- A row with a date and one sentiment column. -/
def rowC10 : Row := [("Date", "2024-01-01"), ("x6020", "5")]

/-- The observation the loader builds from `rowC10`. -/
def obsC10 : CESObservation :=
  match loadRow 0 rowC10 with
  | .ok o => o
  | .error _ => ⟨0, ⟨2024, 1, 1⟩, {}, {}, {}, {}, {}, {}, 1, [], [], []⟩

/-- An observation dated March 2023, for the find-by-period witness. -/
def obsMar : CESObservation :=
  ⟨7, ⟨2023, 3, 15⟩, {}, {}, {}, {}, {}, {}, 1, [], [], []⟩

/-! ### Theorems -/

lemma foldl_push_eq_filterMap (f : CESObservation → Option ℚ) :
    ∀ (data : List CESObservation) (acc : List ℚ),
      data.foldl
        (fun values obs =>
          match f obs with
          | some q => values ++ [q]
          | none => values)
        acc
      = acc ++ data.filterMap f := by
  intro data
  induction data with
  | nil => intro acc; simp
  | cons o t ih =>
    intro acc
    cases h : f o with
    | none => simp [List.foldl_cons, h, ih, List.filterMap_cons]
    | some q => simp [List.foldl_cons, h, ih, List.filterMap_cons]

lemma foldl_member_push_eq_filterMap (f : ℕ → Option HouseholdMember) :
    ∀ (l : List ℕ) (acc : List HouseholdMember),
      l.foldl
        (fun acc i =>
          match f i with
          | some m => acc ++ [m]
          | none => acc)
        acc
      = acc ++ l.filterMap f := by
  intro l
  induction l with
  | nil => intro acc; simp
  | cons i t ih =>
    intro acc
    cases h : f i with
    | none => simp [List.foldl_cons, h, ih, List.filterMap_cons]
    | some m => simp [List.foldl_cons, h, ih, List.filterMap_cons]

lemma genericMeanCompute_eq (attr_path : String) (data : List CESObservation) :
    genericMeanCompute attr_path data =
      if resolvedValues attr_path data = [] then 0
      else (resolvedValues attr_path data).sum /
        ((resolvedValues attr_path data).length : ℚ) := by
  unfold genericMeanCompute resolvedValues
  rw [foldl_push_eq_filterMap]
  simp

/-- C1: `GenericMeanStrategy.compute(path)` returns the arithmetic mean (sum
divided by count) of exactly those values that resolve to a number via the
path-resolution chain, and returns 0.0 when the collection is empty or no
value resolves; the division is guarded by emptiness of the resolved list, so
it never divides by zero. -/
theorem generic_mean_is_mean_of_resolved (attr_path : String)
    (data : List CESObservation) :
    (genericMeanCompute attr_path data =
      if resolvedValues attr_path data = [] then 0
      else (resolvedValues attr_path data).sum /
        ((resolvedValues attr_path data).length : ℚ))
    ∧ genericMeanCompute attr_path ([] : List CESObservation) = 0 := by
  refine ⟨genericMeanCompute_eq attr_path data, ?_⟩
  rw [genericMeanCompute_eq]
  simp [resolvedValues]

/-- C2: resolution walks the attribute segments; if any segment is missing it
falls back to looking up the original path string in `sentiment_flags`, and if
that is absent it retries with the suffix "_1" appended; if the chain does not
yield a number the Observation is silently excluded from the aggregate
(contributing neither a value nor zero).  `resolveChain` is a total Lean
function, which embeds "resolution never raises for any path string". -/
theorem resolution_fallback_chain (attr_path : String) (obs : CESObservation)
    (pre post : List CESObservation)
    (hw : pyWalk (.obsV obs) (pathParts attr_path) = none) :
    (∀ v, obs.sentiment_flags.lookup attr_path = some v → v ≠ Val.pynone →
      resolveChain obs attr_path = .leaf v)
    ∧ (obs.sentiment_flags.lookup attr_path = none →
      resolveChain obs attr_path =
        .leaf (dictGet obs.sentiment_flags (attr_path ++ "_1")))
    ∧ (numOf (resolveChain obs attr_path) = none →
      resolvedValues attr_path (pre ++ obs :: post) =
        resolvedValues attr_path pre ++ resolvedValues attr_path post) := by
  refine ⟨?_, ?_, ?_⟩
  · intro v hv hne
    unfold resolveChain
    rw [hw]
    unfold dictGet
    rw [hv]
    cases v with
    | num q => rfl
    | str s => rfl
    | pynone => exact absurd rfl hne
  · intro hnone
    unfold resolveChain
    rw [hw]
    unfold dictGet
    rw [hnone]
  · intro hnum
    simp [resolvedValues, List.filterMap_append, List.filterMap_cons, hnum]

theorem resolution_fallback_chain_witness :
    (resolveChain obsW "x6020" =
      .leaf (dictGet obsW.sentiment_flags ("x6020" ++ "_1")))
    ∧ resolvedValues "nope" ([] ++ obsW :: []) =
        resolvedValues "nope" [] ++ resolvedValues "nope" [] :=
  ⟨(resolution_fallback_chain "x6020" obsW [] [] (by decide)).2.1 (by decide),
   (resolution_fallback_chain "nope" obsW [] [] (by decide)).2.2 (by decide)⟩

lemma weighted_pairs_const (attr_path : String) (w : ℚ) :
    ∀ (data : List CESObservation), (∀ o ∈ data, o.survey_weight = w) →
      data.filterMap
        (fun obs =>
          (numOf (resolveChain obs attr_path)).map
            (fun q => (q, obs.survey_weight)))
      = (resolvedValues attr_path data).map (fun q => (q, w)) := by
  intro data
  induction data with
  | nil => intro _; simp [resolvedValues]
  | cons o t ih =>
    intro hall
    have ho : o.survey_weight = w := hall o (by simp)
    have ht : ∀ o2 ∈ t, o2.survey_weight = w := fun o2 hm => hall o2 (by simp [hm])
    cases h : numOf (resolveChain o attr_path) with
    | none => simp [List.filterMap_cons, h, resolvedValues, ih ht]
    | some q =>
      simp only [List.filterMap_cons, h, Option.map_some, resolvedValues,
        List.map_cons, ho]
      rw [ih ht]
      simp [resolvedValues]

lemma sum_map_mul_const (w : ℚ) :
    ∀ (l : List ℚ), (l.map (fun q => q * w)).sum = l.sum * w := by
  intro l
  induction l with
  | nil => simp
  | cons q t ih => simp [ih, add_mul]

lemma sum_map_const (w : ℚ) :
    ∀ (l : List ℚ), (l.map (fun _ => w)).sum = (l.length : ℚ) * w := by
  intro l
  induction l with
  | nil => simp
  | cons q t ih =>
    simp only [List.map_cons, List.sum_cons, ih, List.length_cons]
    push_cast
    ring

/-- C3: WeightedMean uses each Observation's survey_weight as the weight, an
Observation whose value does not resolve contributes to neither numerator nor
denominator, it returns 0.0 when the weight sum is zero (in particular on the
empty collection), and when every Observation carries the same nonzero weight
it coincides with GenericMean. -/
theorem weighted_mean_properties (attr_path : String) (obs : CESObservation)
    (pre post data : List CESObservation) (w : ℚ) :
    weightedMeanCompute attr_path ([] : List CESObservation) = 0
    ∧ (numOf (resolveChain obs attr_path) = none →
      weightedMeanCompute attr_path (pre ++ obs :: post) =
        weightedMeanCompute attr_path (pre ++ post))
    ∧ (w ≠ 0 → (∀ o ∈ data, o.survey_weight = w) →
      weightedMeanCompute attr_path data = genericMeanCompute attr_path data) := by
  refine ⟨by simp [weightedMeanCompute], ?_, ?_⟩
  · intro hnum
    unfold weightedMeanCompute
    simp [List.filterMap_append, List.filterMap_cons, hnum]
  · intro hw hall
    simp only [weightedMeanCompute]
    rw [weighted_pairs_const attr_path w data hall, genericMeanCompute_eq]
    generalize resolvedValues attr_path data = vs
    have hsnd : (vs.map (fun q => (q, w))).map Prod.snd = vs.map (fun _ => w) := by
      rw [List.map_map]; rfl
    have hfst : (vs.map (fun q => (q, w))).map (fun p => p.1 * p.2) =
        vs.map (fun q => q * w) := by
      rw [List.map_map]; rfl
    rw [hsnd, hfst, sum_map_mul_const, sum_map_const]
    cases vs with
    | nil => simp
    | cons q t =>
      have hne : (q :: t : List ℚ) ≠ [] := by simp
      have hlen : (((q :: t : List ℚ).length : ℚ)) ≠ 0 := by
        have : ((q :: t : List ℚ).length) ≠ 0 := by simp
        exact_mod_cast Nat.cast_ne_zero.mpr this
      have hprod : (((q :: t : List ℚ).length : ℚ)) * w ≠ 0 := mul_ne_zero hlen hw
      rw [if_neg hprod, if_neg hne]
      field_simp
      ring

theorem weighted_mean_properties_witness :
    weightedMeanCompute "macro.inflation_1y" [obsA, obsB] =
      genericMeanCompute "macro.inflation_1y" [obsA, obsB] :=
  (weighted_mean_properties "macro.inflation_1y" obsA [] [] [obsA, obsB] 2).2.2
    (by decide) (by decide)

lemma prefixOfB_append_self : ∀ (n rest : List Char),
    prefixOfB n (n ++ rest) = true := by
  intro n
  induction n with
  | nil => intro rest; rfl
  | cons c t ih => intro rest; simp [prefixOfB, ih]

lemma prefixOfB_append_mono : ∀ (n l m : List Char),
    prefixOfB n l = true → prefixOfB n (l ++ m) = true := by
  intro n
  induction n with
  | nil => intro l m _; rfl
  | cons c t ih =>
    intro l m h
    cases l with
    | nil => simp [prefixOfB] at h
    | cons b bs =>
      simp [prefixOfB] at h ⊢
      exact ⟨h.1, ih bs m h.2⟩

lemma containsSub_nil_needle : ∀ (hay : List Char), containsSub [] hay = true := by
  intro hay
  cases hay with
  | nil => rfl
  | cons c t => simp [containsSub, prefixOfB]

lemma containsSub_self_append (n rest : List Char) :
    containsSub n (n ++ rest) = true := by
  cases n with
  | nil => exact containsSub_nil_needle rest
  | cons c t =>
    show containsSub (c :: t) (c :: (t ++ rest)) = true
    have h := prefixOfB_append_self (c :: t) rest
    unfold containsSub
    rw [show (c :: t) ++ rest = c :: (t ++ rest) from rfl] at h
    rw [h, Bool.true_or]

lemma containsSub_append_pre : ∀ (pre n rest : List Char),
    containsSub n rest = true → containsSub n (pre ++ rest) = true := by
  intro pre
  induction pre with
  | nil => intro n rest h; simpa using h
  | cons p ps ih =>
    intro n rest h
    show containsSub n (p :: (ps ++ rest)) = true
    unfold containsSub
    rw [ih n rest h, Bool.or_true]

lemma containsSub_append_post : ∀ (l n m : List Char),
    containsSub n l = true → containsSub n (l ++ m) = true := by
  intro l
  induction l with
  | nil =>
    intro n m h
    cases n with
    | nil => exact containsSub_nil_needle m
    | cons c t => simp [containsSub] at h
  | cons b bs ih =>
    intro n m h
    unfold containsSub at h
    rcases Bool.or_eq_true_iff.mp h with hp | hr
    · show containsSub n (b :: (bs ++ m)) = true
      unfold containsSub
      rw [show b :: (bs ++ m) = (b :: bs) ++ m from rfl] at *
      rw [prefixOfB_append_mono n (b :: bs) m hp, Bool.true_or]
    · show containsSub n (b :: (bs ++ m)) = true
      unfold containsSub
      rw [ih n m hr, Bool.or_true]

lemma strContains_left (a b : String) : strContains a (a ++ b) = true := by
  unfold strContains
  rw [String.data_append]
  exact containsSub_self_append a.data b.data

lemma strContains_right (a b : String) : strContains b (a ++ b) = true := by
  unfold strContains
  rw [String.data_append]
  have h := containsSub_self_append b.data []
  rw [List.append_nil] at h
  exact containsSub_append_pre a.data b.data b.data h

lemma strContains_mono_pre (n a b : String) :
    strContains n b = true → strContains n (a ++ b) = true := by
  unfold strContains
  rw [String.data_append]
  exact containsSub_append_pre a.data n.data b.data

lemma strContains_mono_post (n a b : String) :
    strContains n a = true → strContains n (a ++ b) = true := by
  unfold strContains
  rw [String.data_append]
  exact containsSub_append_post a.data n.data b.data

lemma strContains_firstOfThree (a b c : String) :
    strContains a (a ++ b ++ c) = true :=
  strContains_mono_post a (a ++ b) c (strContains_left a b)

lemma strContains_lastOfThree (a b c : String) :
    strContains c (a ++ b ++ c) = true :=
  strContains_right (a ++ b) c

/-- C4: constructing an Observation raises exactly when the observation_date
year lies outside [2000, 2030] or the survey_weight is not strictly positive;
every error message names the offending field and the offending value; a
construction that passes validation preserves the literal date (and weight),
and only a fully validated Observation is ever returned. -/
theorem observation_validation (id : ℕ) (d : PyDate) (ma : MacroModule)
    (co : ConsumptionModule) (la : LaborModule) (ho : HousingWealthModule)
    (cr : CreditDebtModule) (de : DemographicsModule) (w : ℚ)
    (sf qd qa : Flags) :
    ((∃ e, mkCESObservation id d ma co la ho cr de w sf qd qa = .error e) ↔
      (d.year < 2000 ∨ 2030 < d.year ∨ w ≤ 0))
    ∧ (∀ e, mkCESObservation id d ma co la ho cr de w sf qd qa = .error e →
      ((d.year < 2000 ∨ 2030 < d.year) →
        strContains "observation_date" e = true
        ∧ strContains (toString d.year) e = true)
      ∧ (w ≤ 0 →
        strContains "survey_weight" e = true
        ∧ strContains (toString w) e = true))
    ∧ (∀ o, mkCESObservation id d ma co la ho cr de w sf qd qa = .ok o →
      o.observation_date = d ∧ o.survey_weight = w) := by
  have hcd : strContains "observation_date" (dateErrMsg d.year) = true :=
    strContains_firstOfThree _ _ _
  have hcy : strContains (toString d.year) (dateErrMsg d.year) = true :=
    strContains_lastOfThree _ _ _
  have hcw : strContains "survey_weight" (weightErrMsg w) = true :=
    strContains_firstOfThree _ _ _
  have hcv : strContains (toString w) (weightErrMsg w) = true :=
    strContains_lastOfThree _ _ _
  unfold mkCESObservation
  by_cases hd : d.year < 2000 ∨ 2030 < d.year
  · by_cases hw : w ≤ 0
    · rw [if_pos hd, if_pos hw]
      refine ⟨⟨fun _ => by tauto, fun _ => ⟨_, rfl⟩⟩, ?_, ?_⟩
      · intro e he
        have he2 : dateErrMsg d.year ++ "; " ++ weightErrMsg w = e := by
          injection he
        subst he2
        constructor
        · intro _
          exact ⟨strContains_mono_post _ _ _ (strContains_mono_post _ _ _ hcd),
            strContains_mono_post _ _ _ (strContains_mono_post _ _ _ hcy)⟩
        · intro _
          refine ⟨?_, ?_⟩
          · exact strContains_mono_pre _ (dateErrMsg d.year ++ "; ") _ hcw
          · exact strContains_mono_pre _ (dateErrMsg d.year ++ "; ") _ hcv
      · intro o ho
        simp at ho
    · rw [if_pos hd, if_neg hw]
      refine ⟨⟨fun _ => by tauto, fun _ => ⟨_, rfl⟩⟩, ?_, ?_⟩
      · intro e he
        have he2 : dateErrMsg d.year = e := by injection he
        subst he2
        exact ⟨fun _ => ⟨hcd, hcy⟩, fun hw2 => absurd hw2 hw⟩
      · intro o ho
        simp at ho
  · by_cases hw : w ≤ 0
    · rw [if_neg hd, if_pos hw]
      refine ⟨⟨fun _ => by tauto, fun _ => ⟨_, rfl⟩⟩, ?_, ?_⟩
      · intro e he
        have he2 : weightErrMsg w = e := by injection he
        subst he2
        exact ⟨fun hd2 => absurd hd2 hd, fun _ => ⟨hcw, hcv⟩⟩
      · intro o ho
        simp at ho
    · rw [if_neg hd, if_neg hw]
      refine ⟨⟨fun h => ?_, fun h => by tauto⟩, ?_, ?_⟩
      · obtain ⟨e, he⟩ := h
        simp at he
      · intro e he
        simp at he
      · intro o hok
        injection hok with h2
        subst h2
        exact ⟨rfl, rfl⟩

theorem observation_validation_witness :
    (strContains "observation_date" (dateErrMsg 1999) = true
      ∧ strContains (toString (1999 : ℕ)) (dateErrMsg 1999) = true)
    ∧ ((⟨1, ⟨2015, 6, 15⟩, {}, {}, {}, {}, {}, {}, 1, [], [], []⟩ :
        CESObservation).observation_date = ⟨2015, 6, 15⟩
      ∧ (⟨1, ⟨2015, 6, 15⟩, {}, {}, {}, {}, {}, {}, 1, [], [], []⟩ :
        CESObservation).survey_weight = 1) :=
  ⟨((observation_validation 1 ⟨1999, 12, 31⟩ {} {} {} {} {} {} 1 [] [] []).2.1
      (dateErrMsg 1999) rfl).1 (by decide),
   (observation_validation 1 ⟨2015, 6, 15⟩ {} {} {} {} {} {} 1 [] [] []).2.2
      ⟨1, ⟨2015, 6, 15⟩, {}, {}, {}, {}, {}, {}, 1, [], [], []⟩ rfl⟩

/-- C5: `_f` trims whitespace and returns absent for a blank cell or the
case-insensitive literal "none", otherwise attempts a numeric parse and
returns absent (never an error) on failure; `_i` delegates to `_f` and, when
a value is present, rounds it to a nearest integer (not truncation: the
rounded value is within 1/2).  Both are total Lean functions, embedding
"pure and never raise". -/
theorem field_coercion (row : Row) (key : String) (q : ℚ) :
    (pyStrip (rowGet row key) = "" → pf row key = none)
    ∧ (pyLower (pyStrip (rowGet row key)) = "none" → pf row key = none)
    ∧ (pyStrip (rowGet row key) ≠ "" →
        pyFloat (pyStrip (rowGet row key)) = none → pf row key = none)
    ∧ (pyStrip (rowGet row key) ≠ "" →
        pyLower (pyStrip (rowGet row key)) ≠ "none" →
        pyFloat (pyStrip (rowGet row key)) = some q → pf row key = some q)
    ∧ pint row key = (pf row key).map pyRound
    ∧ |(pyRound q : ℚ) - q| ≤ 1 / 2 := by
  refine ⟨?_, ?_, ?_, ?_, rfl, ?_⟩
  · intro h
    unfold pf
    rw [if_pos (Or.inl h)]
  · intro h
    unfold pf
    rw [if_pos (Or.inr h)]
  · intro h1 h2
    unfold pf
    by_cases hn : pyLower (pyStrip (rowGet row key)) = "none"
    · rw [if_pos (Or.inr hn)]
    · rw [if_neg (by tauto)]
      exact h2
  · intro h1 h2 h3
    unfold pf
    rw [if_neg (by tauto)]
    exact h3
  · have hf : ((⌊q⌋ : ℤ) : ℚ) ≤ q := Int.floor_le q
    have hc : q < (⌊q⌋ : ℤ) + 1 := Int.lt_floor_add_one q
    unfold pyRound
    split_ifs with g1 g2 g3 <;> rw [abs_sub_le_iff] <;> constructor <;>
      push_cast <;> linarith

theorem field_coercion_witness :
    pf rowC5 "val" = some ((13 : ℕ) : ℚ)
    ∧ |(pyRound (25 / 2) : ℚ) - 25 / 2| ≤ 1 / 2 :=
  ⟨(field_coercion rowC5 "val" ((13 : ℕ) : ℚ)).2.2.2.1 (by decide) (by decide)
      (by decide),
   (field_coercion rowC5 "val" (25 / 2)).2.2.2.2.2⟩

lemma pf_none_of_absent (row : Row) (k : String) (h : row.lookup k = none) :
    pf row k = none := by
  simp only [pf, rowGet, h]
  decide

lemma memberSlot_some (row : Row) (i : ℕ) (m : HouseholdMember)
    (h : memberSlot row i = some m) :
    m.member_id = i
    ∧ m.age = pf row ("c2151_" ++ toString i)
    ∧ m.relation_status = pf row ("c2150_" ++ toString i)
    ∧ (m.age ≠ none ∨ m.relation_status ≠ none) := by
  unfold memberSlot at h
  by_cases hc : pf row ("c2151_" ++ toString i) ≠ none
      ∨ pf row ("c2150_" ++ toString i) ≠ none
  · rw [if_pos hc] at h
    injection h with h2
    subst h2
    exact ⟨rfl, rfl, rfl, by simpa using hc⟩
  · rw [if_neg hc] at h
    exact absurd h (by simp)

lemma buildMembers_eq (row : Row) :
    buildMembers row = (List.range' 1 10).filterMap (memberSlot row) := by
  unfold buildMembers
  rw [foldl_member_push_eq_filterMap]
  simp

/-- C6: the HouseholdMember sequence scans slots 1..10 in ascending order; a
slot is included only when at least one of its two source columns is present
in the row (with a parseable value); member ids are strictly increasing along
the list, so there is at most one entry per member_id and input (ascending
slot) order is preserved. -/
theorem household_members_invariants (row : Row) :
    List.Pairwise (fun a b => a.member_id < b.member_id) (buildMembers row)
    ∧ ∀ m ∈ buildMembers row,
        1 ≤ m.member_id ∧ m.member_id ≤ 10
        ∧ m.age = pf row ("c2151_" ++ toString m.member_id)
        ∧ m.relation_status = pf row ("c2150_" ++ toString m.member_id)
        ∧ (m.age ≠ none ∨ m.relation_status ≠ none)
        ∧ ((row.lookup ("c2151_" ++ toString m.member_id)).isSome
           ∨ (row.lookup ("c2150_" ++ toString m.member_id)).isSome) := by
  constructor
  · rw [buildMembers_eq]
    have base : List.Pairwise (· < ·) (List.range' 1 10) := by decide
    refine List.pairwise_filterMap.mpr (base.imp ?_)
    intro i j hij m hm m2 hm2
    have h1 := (memberSlot_some row i m (Option.mem_def.mp hm)).1
    have h2 := (memberSlot_some row j m2 (Option.mem_def.mp hm2)).1
    rw [h1, h2]
    exact hij
  · intro m hm
    rw [buildMembers_eq] at hm
    obtain ⟨i, hi, hsome⟩ := List.mem_filterMap.mp hm
    obtain ⟨hid, hage, hrel, hor⟩ := memberSlot_some row i m hsome
    subst hid
    have hrange := List.mem_range'_1.mp hi
    refine ⟨hrange.1, by omega, hage, hrel, hor, ?_⟩
    rcases hor with ha | hr
    · left
      rw [hage] at ha
      cases hl : row.lookup ("c2151_" ++ toString m.member_id) with
      | some v => simp
      | none => exact absurd (pf_none_of_absent row _ hl) ha
    · right
      rw [hrel] at hr
      cases hl : row.lookup ("c2150_" ++ toString m.member_id) with
      | some v => simp
      | none => exact absurd (pf_none_of_absent row _ hl) hr

theorem household_members_invariants_witness :
    (rowC6.lookup ("c2151_" ++ toString (2 : ℕ))).isSome
    ∨ (rowC6.lookup ("c2150_" ++ toString (2 : ℕ))).isSome :=
  ((household_members_invariants rowC6).2
    ⟨2, none, some ((30 : ℕ) : ℚ)⟩ (by decide)).2.2.2.2.2

lemma pct_bounds (c n : ℕ) (hc : c ≤ n) (hn : n ≠ 0) :
    0 ≤ ((c : ℚ) / (n : ℚ)) * 100 ∧ ((c : ℚ) / (n : ℚ)) * 100 ≤ 100 := by
  have hn2 : (0 : ℚ) < (n : ℚ) := by exact_mod_cast Nat.pos_of_ne_zero hn
  have hcq : (c : ℚ) ≤ (n : ℚ) := by exact_mod_cast hc
  constructor
  · positivity
  · rw [div_mul_eq_mul_div, div_le_iff₀ hn2]
    linarith

/-- C8: DemographicsQualityStrategy.compute (and so run_quality_report) is
not total: on the empty collection the comprehension divides by zero and the
call fails instead of returning a result; on every non-empty collection it
returns exactly the five fixed categories, each with a percentage in
[0, 100]. -/
theorem quality_report_totality (data : List CESObservation) :
    demographicsQualityCompute [] =
      .error "ZeroDivisionError: division by zero"
    ∧ (data ≠ [] → ∃ l, demographicsQualityCompute data = .ok l
        ∧ l.map Prod.fst =
          ["Gender", "Age Group", "Household Size", "Education Info",
            "Household Members"]
        ∧ ∀ p ∈ l, 0 ≤ p.2 ∧ p.2 ≤ 100) := by
  constructor
  · rfl
  · intro hne
    have hn : data.length ≠ 0 := fun h => hne (List.length_eq_zero.mp h)
    have hlen : (data.length : ℚ) ≠ 0 := by exact_mod_cast hn
    refine ⟨(missingCounts data).map
      (fun p => (p.1, ((p.2 : ℚ) / (data.length : ℚ)) * 100)), ?_, by
        simp [missingCounts], ?_⟩
    · simp only [demographicsQualityCompute, missingCounts, divMapCounts,
        pyDiv, if_neg hlen, List.map_cons, List.map_nil]
    · intro p hp
      simp only [missingCounts, List.map_cons, List.map_nil, List.mem_cons,
        List.not_mem_nil, or_false] at hp
      rcases hp with h | h | h | h | h <;> subst h <;>
        exact pct_bounds _ _ (List.countP_le_length _) hn

theorem quality_report_totality_witness :
    ∃ l, demographicsQualityCompute [obsA] = .ok l
      ∧ l.map Prod.fst =
        ["Gender", "Age Group", "Household Size", "Education Info",
          "Household Members"]
      ∧ ∀ p ∈ l, 0 ≤ p.2 ∧ p.2 ≤ 100 :=
  (quality_report_totality [obsA]).2 (by simp)

lemma mk_ok_of_valid (id : ℕ) (d : PyDate) (ma : MacroModule)
    (co : ConsumptionModule) (la : LaborModule) (ho : HousingWealthModule)
    (cr : CreditDebtModule) (de : DemographicsModule) (w : ℚ) (sf qd qa : Flags)
    (h1 : ¬(d.year < 2000 ∨ 2030 < d.year)) (h2 : ¬(w ≤ 0)) :
    mkCESObservation id d ma co la ho cr de w sf qd qa =
      .ok ⟨id, d, ma, co, la, ho, cr, de, w, sf, qd, qa⟩ := by
  unfold mkCESObservation
  rw [if_neg h1, if_neg h2]

lemma mk_error_weight (id : ℕ) (d : PyDate) (ma : MacroModule)
    (co : ConsumptionModule) (la : LaborModule) (ho : HousingWealthModule)
    (cr : CreditDebtModule) (de : DemographicsModule) (w : ℚ) (sf qd qa : Flags)
    (h1 : ¬(d.year < 2000 ∨ 2030 < d.year)) (h2 : w ≤ 0) :
    mkCESObservation id d ma co la ho cr de w sf qd qa =
      .error (weightErrMsg w) := by
  unfold mkCESObservation
  rw [if_neg h1, if_pos h2]

/-- C9: a row whose "wgt" cell parses to exactly 0.0 does not fail
validation: the falsy-value coalescing (`self._f(row, "wgt") or 1.0`)
replaces the parsed 0.0 with the default 1.0 before construction, so the
built Observation has survey_weight 1.0; construction of an otherwise valid
row raises exactly when the parsed weight is strictly negative. -/
theorem weight_coalescing (i : ℕ) (row : Row) (ds : String) (d : PyDate)
    (hds : row.lookup "Date" = some ds)
    (hd : strptimeYMD ds = some d)
    (hy : 2000 ≤ d.year ∧ d.year ≤ 2030)
    (hmac : ¬(pyOrQ (pf row "c4030") 0 < -100 ∨ 100 < pyOrQ (pf row "c4030") 0)) :
    (pf row "wgt" = some 0 → ∃ o, loadRow i row = .ok o ∧ o.survey_weight = 1)
    ∧ ((∃ e, loadRow i row = .error e) ↔ ∃ w, pf row "wgt" = some w ∧ w < 0) := by
  have hdo : ¬(d.year < 2000 ∨ 2030 < d.year) := by omega
  have hma : mkMacroModule (pyOrQ (pf row "c4030") 0) (pf row "c4031")
      (pf row "c4010") (pf row "c4020") (pf row "e2010") (pf row "e2020")
      (pf row "c4032") =
      .ok ⟨pyOrQ (pf row "c4030") 0, pf row "c4031", pf row "c4010",
        pf row "c4020", pf row "e2010", pf row "e2020", pf row "c4032"⟩ := by
    unfold mkMacroModule
    rw [if_neg hmac]
  unfold loadRow
  simp only [hma, hds, hd]
  constructor
  · intro h0
    have h1 : pyOrQ (pf row "wgt") 1 = 1 := by
      rw [h0]
      simp [pyOrQ]
    rw [h1]
    exact ⟨_, mk_ok_of_valid _ _ _ _ _ _ _ _ _ _ _ _ hdo (by norm_num), rfl⟩
  · constructor
    · rintro ⟨e, he⟩
      by_cases hw : pyOrQ (pf row "wgt") 1 ≤ 0
      · cases hpf : pf row "wgt" with
        | none =>
          simp [pyOrQ, hpf] at hw
          exact absurd hw (by norm_num)
        | some w =>
          by_cases hz : w = 0
          · subst hz
            simp [pyOrQ, hpf] at hw
            exact absurd hw (by norm_num)
          · refine ⟨w, rfl, ?_⟩
            simp [pyOrQ, hpf, hz] at hw
            exact lt_of_le_of_ne hw hz
      · rw [mk_ok_of_valid _ _ _ _ _ _ _ _ _ _ _ _ hdo hw] at he
        simp at he
    · rintro ⟨w, hpf, hneg⟩
      have hw : pyOrQ (pf row "wgt") 1 = w := by
        simp [pyOrQ, hpf, hneg.ne]
      rw [hw]
      exact ⟨weightErrMsg w,
        mk_error_weight _ _ _ _ _ _ _ _ _ _ _ _ hdo (le_of_lt hneg)⟩

theorem weight_coalescing_witness :
    ∃ o, loadRow 0 rowC9 = .ok o ∧ o.survey_weight = 1 :=
  (weight_coalescing 0 rowC9 "2024-01-01" ⟨2024, 1, 1⟩ rfl rfl (by decide)
    (by decide)).1 (by decide)

lemma mkCESObservation_ok (id : ℕ) (d : PyDate) (ma : MacroModule)
    (co : ConsumptionModule) (la : LaborModule) (ho : HousingWealthModule)
    (cr : CreditDebtModule) (de : DemographicsModule) (w : ℚ) (sf qd qa : Flags)
    (o : CESObservation)
    (h : mkCESObservation id d ma co la ho cr de w sf qd qa = .ok o) :
    o = ⟨id, d, ma, co, la, ho, cr, de, w, sf, qd, qa⟩ := by
  unfold mkCESObservation at h
  by_cases h1 : d.year < 2000 ∨ 2030 < d.year
  · rw [if_pos h1] at h
    by_cases h2 : w ≤ 0
    · rw [if_pos h2] at h
      simp at h
    · rw [if_neg h2] at h
      simp at h
  · rw [if_neg h1] at h
    by_cases h2 : w ≤ 0
    · rw [if_pos h2] at h
      simp at h
    · rw [if_neg h2] at h
      injection h with h3
      exact h3.symm

lemma loadRow_ok_flags (i : ℕ) (row : Row) (o : CESObservation)
    (h : loadRow i row = .ok o) : o.sentiment_flags = sentimentFlags row := by
  unfold loadRow at h
  cases hma : mkMacroModule (pyOrQ (pf row "c4030") 0) (pf row "c4031")
      (pf row "c4010") (pf row "c4020") (pf row "e2010") (pf row "e2020")
      (pf row "c4032") with
  | error e =>
    simp only [hma] at h
    exact Except.noConfusion h
  | ok ma =>
    simp only [hma] at h
    cases hds : row.lookup "Date" with
    | none =>
      simp only [hds] at h
      exact Except.noConfusion h
    | some ds =>
      simp only [hds] at h
      cases hdp : strptimeYMD ds with
      | none =>
        simp only [hdp] at h
        exact Except.noConfusion h
      | some d =>
        simp only [hdp] at h
        rw [mkCESObservation_ok _ _ _ _ _ _ _ _ _ _ _ _ _ h]

lemma strdict_values (row : Row) (g : String × String → Bool)
    (p : String × Val)
    (hp : p ∈ (row.filter g).map (fun kv => (kv.1, Val.str kv.2))) :
    ∃ s, p.2 = Val.str s := by
  obtain ⟨kv, _, hmap⟩ := List.mem_map.mp hp
  exact ⟨kv.2, by rw [← hmap]⟩

lemma sentimentFlags_values (row : Row) :
    ∀ p ∈ sentimentFlags row, ∃ s, p.2 = Val.str s := by
  intro p hp
  unfold sentimentFlags at hp
  exact strdict_values row _ p hp

lemma quarterlyData_values (row : Row) :
    ∀ p ∈ quarterlyData row, ∃ s, p.2 = Val.str s := by
  intro p hp
  unfold quarterlyData at hp
  exact strdict_values row _ p hp

lemma qualityAudit_values (row : Row) :
    ∀ p ∈ qualityAudit row, ∃ s, p.2 = Val.str s := by
  intro p hp
  unfold qualityAudit at hp
  exact strdict_values row _ p hp

lemma lookup_mem_flags : ∀ (fl : Flags) (k : String) (v : Val),
    fl.lookup k = some v → ∃ k2, (k2, v) ∈ fl := by
  intro fl
  induction fl with
  | nil => intro k v h; simp [List.lookup] at h
  | cons p t ih =>
    intro k v h
    obtain ⟨k2, v2⟩ := p
    rw [List.lookup_cons] at h
    cases hbk : (k == k2) with
    | true =>
      rw [hbk] at h
      simp at h
      exact ⟨k2, by simp [h]⟩
    | false =>
      rw [hbk] at h
      simp at h
      obtain ⟨k3, hmem⟩ := ih k v h
      exact ⟨k3, by simp [hmem]⟩

lemma flags_lookup_str (fl : Flags) (hstr : ∀ p ∈ fl, ∃ s, p.2 = Val.str s)
    (k : String) :
    dictGet fl k = Val.pynone ∨ ∃ s, dictGet fl k = Val.str s := by
  unfold dictGet
  cases hl : fl.lookup k with
  | none => left; rfl
  | some v =>
    right
    obtain ⟨k2, hmem⟩ := lookup_mem_flags fl k v hl
    obtain ⟨s, hs⟩ := hstr (k2, v) hmem
    exact ⟨s, by simpa using hs⟩

/-- C10: every value stored by load_all_data in sentiment_flags,
quarterly_data and quality_audit is the raw cell text (a string); hence for
observations produced by the loader, a value obtained through the
sentiment_flags fallback is never numeric and is always excluded, so
GenericMean over any path that resolves only via the fallback returns 0.0. -/
theorem open_maps_hold_raw_text (row : Row) (attr_path : String)
    (data : List CESObservation)
    (hload : ∀ obs ∈ data, ∃ i r, loadRow i r = .ok obs)
    (hwalk : ∀ obs ∈ data, pyWalk (.obsV obs) (pathParts attr_path) = none) :
    (∀ p ∈ sentimentFlags row, ∃ s, p.2 = Val.str s)
    ∧ (∀ p ∈ quarterlyData row, ∃ s, p.2 = Val.str s)
    ∧ (∀ p ∈ qualityAudit row, ∃ s, p.2 = Val.str s)
    ∧ genericMeanCompute attr_path data = 0 := by
  refine ⟨sentimentFlags_values row, quarterlyData_values row,
    qualityAudit_values row, ?_⟩
  rw [genericMeanCompute_eq]
  have hnil : resolvedValues attr_path data = [] := by
    unfold resolvedValues
    rw [List.filterMap_eq_nil_iff]
    intro obs hobs
    obtain ⟨i, r, hok⟩ := hload obs hobs
    have hflags := loadRow_ok_flags i r obs hok
    have hw := hwalk obs hobs
    have hstr : ∀ p ∈ obs.sentiment_flags, ∃ s, p.2 = Val.str s := by
      rw [hflags]
      exact sentimentFlags_values r
    unfold resolveChain
    simp only [hw]
    rcases flags_lookup_str obs.sentiment_flags hstr attr_path with h1 | ⟨s, h1⟩
    · simp only [h1]
      rcases flags_lookup_str obs.sentiment_flags hstr (attr_path ++ "_1") with
        h2 | ⟨s2, h2⟩ <;> simp only [h2] <;> rfl
    · simp only [h1]
      rfl
  rw [hnil]
  simp

theorem open_maps_hold_raw_text_witness :
    genericMeanCompute "x6020" [obsC10] = 0 :=
  (open_maps_hold_raw_text rowC10 "x6020" [obsC10]
    (fun obs hm => ⟨0, rowC10, by
      rw [List.mem_singleton] at hm
      subst hm
      rfl⟩)
    (fun obs hm => by
      rw [List.mem_singleton] at hm
      subst hm
      decide)).2.2.2

lemma year_repr_len : ∀ y ∈ List.range' 2000 31, (toString y).data.length = 4 := by
  decide

lemma year_repr_inj : ∀ y ∈ List.range' 2000 31, ∀ y2 ∈ List.range' 2000 31,
    toString y = toString y2 ↔ y = y2 := by
  decide

lemma year_head : ∀ y ∈ List.range' 2000 31,
    (toString y).data.head? = some '2' := by
  decide

lemma pad2_len : ∀ m ∈ List.range' 1 12, (pad2 m).data.length = 2 := by
  decide

lemma pad2_inj : ∀ m ∈ List.range' 1 12, ∀ m2 ∈ List.range' 1 12,
    pad2 m = pad2 m2 ↔ m = m2 := by
  decide

lemma pad2_head : ∀ m ∈ List.range' 1 12,
    (pad2 m).data.head? = some '0' ∨ (pad2 m).data.head? = some '1' := by
  decide

lemma abbrev_len : ∀ m ∈ List.range' 1 12, (monthAbbrev m).data.length = 3 := by
  decide

lemma no_month_in_fmtYM : ∀ y ∈ List.range' 2000 31, ∀ m ∈ List.range' 1 12,
    monthsList.any (fun p => strContains p.1 (fmtYM y m)) = false := by
  decide

lemma no_month_in_fmtMY : ∀ y ∈ List.range' 2000 31, ∀ m ∈ List.range' 1 12,
    monthsList.any (fun p => strContains p.1 (fmtMY y m)) = false := by
  decide

lemma find_month_in_name : ∀ m ∈ List.range' 1 12, ∀ y ∈ List.range' 2000 31,
    monthsList.find?
        (fun p => strContains p.1 (monthAbbrev m ++ " " ++ toString y))
      = some (monthAbbrev m, m) := by
  decide

lemma year_in_name : ∀ m ∈ List.range' 1 12, ∀ y ∈ List.range' 2000 31,
    ∀ y2 ∈ List.range' 2000 31,
      strContains (toString y2) (monthAbbrev m ++ " " ++ toString y) =
        (y2 == y) := by
  decide

lemma any_month_in_name : ∀ m ∈ List.range' 1 12, ∀ y ∈ List.range' 2000 31,
    monthsList.any
        (fun p => strContains p.1 (monthAbbrev m ++ " " ++ toString y)) = true := by
  decide

lemma norm_fmtYM : ∀ y ∈ List.range' 2000 31, ∀ m ∈ List.range' 1 12,
    pyStrip (pyLower (fmtYM y m)) = fmtYM y m := by
  decide

lemma norm_fmtMY : ∀ y ∈ List.range' 2000 31, ∀ m ∈ List.range' 1 12,
    pyStrip (pyLower (fmtMY y m)) = fmtMY y m := by
  decide

lemma norm_name : ∀ m ∈ List.range' 1 12, ∀ y ∈ List.range' 2000 31,
    pyStrip (pyLower (monthAbbrev m ++ " " ++ toString y)) =
      monthAbbrev m ++ " " ++ toString y := by
  decide

lemma head?_append_left (l l2 : List Char) (a : Char) (h : l.head? = some a) :
    (l ++ l2).head? = some a := by
  cases l with
  | nil => simp at h
  | cons c t =>
    simp at h ⊢
    exact h

lemma ne_of_head (s t : String) (a b : Char) (hs : s.data.head? = some a)
    (ht : t.data.head? = some b) (hab : a ≠ b) : s ≠ t := by
  intro he
  rw [he] at hs
  rw [hs] at ht
  injection ht with h2
  exact hab h2

lemma ne_of_len (s t : String) (h : s.data.length ≠ t.data.length) : s ≠ t := by
  intro he
  exact h (by rw [he])

lemma fmtYM_data (y m : ℕ) :
    (fmtYM y m).data = (toString y).data ++ ['-'] ++ (pad2 m).data := by
  unfold fmtYM
  rw [String.data_append, String.data_append]

lemma fmtMY_data (y m : ℕ) :
    (fmtMY y m).data = (pad2 m).data ++ ['-'] ++ (toString y).data := by
  unfold fmtMY
  rw [String.data_append, String.data_append]

lemma name_data (m y : ℕ) :
    (monthAbbrev m ++ " " ++ toString y).data =
      (monthAbbrev m).data ++ [' '] ++ (toString y).data := by
  rw [String.data_append, String.data_append]

lemma fmtYM_head (y m : ℕ) (hy : y ∈ List.range' 2000 31) :
    (fmtYM y m).data.head? = some '2' := by
  rw [fmtYM_data]
  exact head?_append_left _ _ _ (head?_append_left _ _ _ (year_head y hy))

lemma fmtYM_ne_fmtMY (y m y2 m2 : ℕ) (hy : y ∈ List.range' 2000 31)
    (hm2 : m2 ∈ List.range' 1 12) : fmtYM y m ≠ fmtMY y2 m2 := by
  rcases pad2_head m2 hm2 with h0 | h0
  · refine ne_of_head _ _ '2' '0' (fmtYM_head y m hy) ?_ (by decide)
    rw [fmtMY_data]
    exact head?_append_left _ _ _ (head?_append_left _ _ _ h0)
  · refine ne_of_head _ _ '2' '1' (fmtYM_head y m hy) ?_ (by decide)
    rw [fmtMY_data]
    exact head?_append_left _ _ _ (head?_append_left _ _ _ h0)

lemma fmtYM_len (y m : ℕ) (hy : y ∈ List.range' 2000 31)
    (hm : m ∈ List.range' 1 12) : (fmtYM y m).data.length = 7 := by
  rw [fmtYM_data]
  simp [year_repr_len y hy, pad2_len m hm]

lemma fmtMY_len (y m : ℕ) (hy : y ∈ List.range' 2000 31)
    (hm : m ∈ List.range' 1 12) : (fmtMY y m).data.length = 7 := by
  rw [fmtMY_data]
  simp [year_repr_len y hy, pad2_len m hm]

lemma name_len (m y : ℕ) (hm : m ∈ List.range' 1 12)
    (hy : y ∈ List.range' 2000 31) :
    (monthAbbrev m ++ " " ++ toString y).data.length = 8 := by
  rw [name_data]
  simp [year_repr_len y hy, abbrev_len m hm]

lemma name_ne_fmtYM (m y y2 m2 : ℕ) (hm : m ∈ List.range' 1 12)
    (hy : y ∈ List.range' 2000 31) (hy2 : y2 ∈ List.range' 2000 31)
    (hm2 : m2 ∈ List.range' 1 12) :
    monthAbbrev m ++ " " ++ toString y ≠ fmtYM y2 m2 := by
  apply ne_of_len
  rw [name_len m y hm hy, fmtYM_len y2 m2 hy2 hm2]
  norm_num

lemma name_ne_fmtMY (m y y2 m2 : ℕ) (hm : m ∈ List.range' 1 12)
    (hy : y ∈ List.range' 2000 31) (hy2 : y2 ∈ List.range' 2000 31)
    (hm2 : m2 ∈ List.range' 1 12) :
    monthAbbrev m ++ " " ++ toString y ≠ fmtMY y2 m2 := by
  apply ne_of_len
  rw [name_len m y hm hy, fmtMY_len y2 m2 hy2 hm2]
  norm_num

lemma fmtYM_inj (y m y2 m2 : ℕ) (hy : y ∈ List.range' 2000 31)
    (hm : m ∈ List.range' 1 12) (hy2 : y2 ∈ List.range' 2000 31)
    (hm2 : m2 ∈ List.range' 1 12) :
    fmtYM y m = fmtYM y2 m2 ↔ y = y2 ∧ m = m2 := by
  constructor
  · intro h
    have hd : (fmtYM y m).data = (fmtYM y2 m2).data := by rw [h]
    rw [fmtYM_data, fmtYM_data] at hd
    have hlen1 : ((toString y).data ++ ['-']).length =
        ((toString y2).data ++ ['-']).length := by
      simp [year_repr_len y hy, year_repr_len y2 hy2]
    obtain ⟨h1, h2⟩ := List.append_inj hd hlen1
    have hlen2 : (toString y).data.length = (toString y2).data.length := by
      rw [year_repr_len y hy, year_repr_len y2 hy2]
    obtain ⟨h3, _⟩ := List.append_inj h1 hlen2
    exact ⟨(year_repr_inj y hy y2 hy2).mp (String.ext h3),
      (pad2_inj m hm m2 hm2).mp (String.ext h2)⟩
  · rintro ⟨rfl, rfl⟩
    rfl

lemma fmtMY_inj (y m y2 m2 : ℕ) (hy : y ∈ List.range' 2000 31)
    (hm : m ∈ List.range' 1 12) (hy2 : y2 ∈ List.range' 2000 31)
    (hm2 : m2 ∈ List.range' 1 12) :
    fmtMY y m = fmtMY y2 m2 ↔ y = y2 ∧ m = m2 := by
  constructor
  · intro h
    have hd : (fmtMY y m).data = (fmtMY y2 m2).data := by rw [h]
    rw [fmtMY_data, fmtMY_data] at hd
    have hlen1 : ((pad2 m).data ++ ['-']).length =
        ((pad2 m2).data ++ ['-']).length := by
      simp [pad2_len m hm, pad2_len m2 hm2]
    obtain ⟨h1, h2⟩ := List.append_inj hd hlen1
    have hlen2 : (pad2 m).data.length = (pad2 m2).data.length := by
      rw [pad2_len m hm, pad2_len m2 hm2]
    obtain ⟨h3, _⟩ := List.append_inj h1 hlen2
    exact ⟨(year_repr_inj y hy y2 hy2).mp (String.ext h2),
      (pad2_inj m hm m2 hm2).mp (String.ext h3)⟩
  · rintro ⟨rfl, rfl⟩
    rfl

lemma mem_year_range (y : ℕ) (h1 : 2000 ≤ y) (h2 : y ≤ 2030) :
    y ∈ List.range' 2000 31 := by
  rw [List.mem_range']
  exact ⟨y - 2000, by omega, by omega⟩

lemma mem_month_range (m : ℕ) (h1 : 1 ≤ m) (h2 : m ≤ 12) :
    m ∈ List.range' 1 12 := by
  rw [List.mem_range']
  exact ⟨m - 1, by omega, by omega⟩

lemma findBody_YM (y m : ℕ) (obs : CESObservation)
    (hy : y ∈ List.range' 2000 31) (hm : m ∈ List.range' 1 12)
    (hY : obs.observation_date.year ∈ List.range' 2000 31)
    (hM : obs.observation_date.month ∈ List.range' 1 12) :
    findBody (fmtYM y m) obs =
      if matchesPeriod y m obs then some obs else none := by
  unfold findBody matchesPeriod
  by_cases h1 : fmtYM y m =
      fmtYM obs.observation_date.year obs.observation_date.month
  · rw [if_pos h1]
    obtain ⟨he1, he2⟩ := (fmtYM_inj y m _ _ hy hm hY hM).mp h1
    simp [← he1, ← he2]
  · rw [if_neg h1]
    rw [if_neg (fmtYM_ne_fmtMY y m _ _ hy hM)]
    have h4 : (obs.observation_date.year == y
        && obs.observation_date.month == m) = false := by
      by_contra hc
      rw [Bool.not_eq_false, Bool.and_eq_true, beq_iff_eq, beq_iff_eq] at hc
      exact h1 (by rw [hc.1, hc.2])
    simp [no_month_in_fmtYM y hy m hm, h4]

lemma findBody_MY (y m : ℕ) (obs : CESObservation)
    (hy : y ∈ List.range' 2000 31) (hm : m ∈ List.range' 1 12)
    (hY : obs.observation_date.year ∈ List.range' 2000 31)
    (hM : obs.observation_date.month ∈ List.range' 1 12) :
    findBody (fmtMY y m) obs =
      if matchesPeriod y m obs then some obs else none := by
  unfold findBody matchesPeriod
  rw [if_neg (fmtYM_ne_fmtMY _ _ y m hY hm).symm]
  by_cases h1 : fmtMY y m =
      fmtMY obs.observation_date.year obs.observation_date.month
  · rw [if_pos h1]
    obtain ⟨he1, he2⟩ := (fmtMY_inj y m _ _ hy hm hY hM).mp h1
    simp [← he1, ← he2]
  · rw [if_neg h1]
    have h4 : (obs.observation_date.year == y
        && obs.observation_date.month == m) = false := by
      by_contra hc
      rw [Bool.not_eq_false, Bool.and_eq_true, beq_iff_eq, beq_iff_eq] at hc
      exact h1 (by rw [hc.1, hc.2])
    simp [no_month_in_fmtMY y hy m hm, h4]

lemma findBody_name (y m : ℕ) (obs : CESObservation)
    (hy : y ∈ List.range' 2000 31) (hm : m ∈ List.range' 1 12)
    (hY : obs.observation_date.year ∈ List.range' 2000 31)
    (hM : obs.observation_date.month ∈ List.range' 1 12) :
    findBody (monthAbbrev m ++ " " ++ toString y) obs =
      if matchesPeriod y m obs then some obs else none := by
  unfold findBody matchesPeriod
  rw [if_neg (name_ne_fmtYM m y _ _ hm hy hY hM)]
  rw [if_neg (name_ne_fmtMY m y _ _ hm hy hY hM)]
  have hany := any_month_in_name m hm y hy
  have hyr := year_in_name m hm y hy obs.observation_date.year hY
  have hf := find_month_in_name m hm y hy
  by_cases hYy : obs.observation_date.year = y
  · have hyr2 : strContains (toString obs.observation_date.year)
        (monthAbbrev m ++ " " ++ toString y) = true := by
      rw [hyr, hYy]
      simp
    have hyr4 : strContains (toString y)
        (monthAbbrev m ++ " " ++ toString y) = true := by
      nth_rewrite 1 [← hYy]
      exact hyr2
    by_cases hMm : obs.observation_date.month = m
    · simp [hany, hyr2, hyr4, hf, hYy, hMm]
    · have hb2 : (obs.observation_date.month == m) = false := by
        simpa using hMm
      have hb3 : ¬(m = obs.observation_date.month) := fun h => hMm h.symm
      simp [hany, hyr2, hyr4, hf, hYy, hb2, hb3]
  · have hb : (obs.observation_date.year == y) = false := by
      simpa using hYy
    have hyr3 : strContains (toString obs.observation_date.year)
        (monthAbbrev m ++ " " ++ toString y) = false := by
      rw [hyr, hb]
    simp [hyr3, hb]

lemma findSome?_eq_find? (f : CESObservation → Option CESObservation)
    (p : CESObservation → Bool) :
    ∀ (data : List CESObservation),
      (∀ obs ∈ data, f obs = if p obs then some obs else none) →
      data.findSome? f = data.find? p := by
  intro data
  induction data with
  | nil => intro _; rfl
  | cons o t ih =>
    intro h
    have ho := h o (by simp)
    have ht := ih (fun obs hmem => h obs (by simp [hmem]))
    by_cases hp : p o
    · simp [List.findSome?_cons, List.find?_cons, ho, hp]
    · simp [List.findSome?_cons, List.find?_cons, ho, hp, ht]

/-- C7: find_by_date matches its query case-insensitively against the three
accepted formats "YYYY-MM", "MM-YYYY" and a free-form month-abbreviation plus
four-digit-year string; each returns the first Observation in collection
order dated in that month and year, so all three variants naming the same
period locate the same Observation, and absence of a match yields None, not
an error (findByDate is total). -/
theorem find_by_period_formats (data : List CESObservation) (y m : ℕ)
    (hy : 2000 ≤ y ∧ y ≤ 2030) (hm : 1 ≤ m ∧ m ≤ 12)
    (hdata : ∀ obs ∈ data, 2000 ≤ obs.observation_date.year
      ∧ obs.observation_date.year ≤ 2030
      ∧ 1 ≤ obs.observation_date.month ∧ obs.observation_date.month ≤ 12) :
    findByDate data (fmtYM y m) = data.find? (matchesPeriod y m)
    ∧ findByDate data (fmtMY y m) = data.find? (matchesPeriod y m)
    ∧ findByDate data (monthAbbrev m ++ " " ++ toString y) =
        data.find? (matchesPeriod y m) := by
  have hym := mem_year_range y hy.1 hy.2
  have hmm := mem_month_range m hm.1 hm.2
  refine ⟨?_, ?_, ?_⟩
  · unfold findByDate
    rw [norm_fmtYM y hym m hmm]
    apply findSome?_eq_find?
    intro obs hobs
    obtain ⟨b1, b2, b3, b4⟩ := hdata obs hobs
    exact findBody_YM y m obs hym hmm (mem_year_range _ b1 b2)
      (mem_month_range _ b3 b4)
  · unfold findByDate
    rw [norm_fmtMY y hym m hmm]
    apply findSome?_eq_find?
    intro obs hobs
    obtain ⟨b1, b2, b3, b4⟩ := hdata obs hobs
    exact findBody_MY y m obs hym hmm (mem_year_range _ b1 b2)
      (mem_month_range _ b3 b4)
  · unfold findByDate
    rw [norm_name m hmm y hym]
    apply findSome?_eq_find?
    intro obs hobs
    obtain ⟨b1, b2, b3, b4⟩ := hdata obs hobs
    exact findBody_name y m obs hym hmm (mem_year_range _ b1 b2)
      (mem_month_range _ b3 b4)

theorem find_by_period_formats_witness :
    findByDate [obsMar] (fmtYM 2023 3) = [obsMar].find? (matchesPeriod 2023 3)
    ∧ findByDate [obsMar] (monthAbbrev 3 ++ " " ++ toString (2023 : ℕ)) =
        [obsMar].find? (matchesPeriod 2023 3) :=
  ⟨(find_by_period_formats [obsMar] 2023 3 (by decide) (by decide)
      (by decide)).1,
   (find_by_period_formats [obsMar] 2023 3 (by decide) (by decide)
      (by decide)).2.2⟩

end CES
